import Mathlib

/-!
Verification of the stock-data ingestion pipeline
(`src/data_ingestor/data_ingestion.py` together with `config/settings.py`).

Modeling conventions of the shallow embedding:

* A pandas data frame is modeled as a list of column names plus a list of rows
  of integer cells (`DataFrame`).  `df.empty` is true iff an axis has length 0.
* External effects are collected in an `Env` record: `download` models
  `yf.download` for the configured period/interval (an `Except.error` is a
  raising provider call, an `Except.ok` result may still be empty);
  `nowString` is the second-resolution `strftime` rendering of the wall clock
  at upload time; `uploadOutcome` models the GCS write
  (`blob.upload_from_string`) succeeding or raising.
* Observable side effects are recorded in an `Event` trace: provider calls,
  negative-price warnings, upload calls (with path, serialized content and
  content type), rate-limit sleeps, retry sleeps, per-attempt log lines, each
  evaluation of the last-element access in the run loop, and the final
  summary.  Plain informational log lines are not modeled.
* The exception classes raised and caught inside the Python module
  (download / validation / upload errors) are modeled as the closed inductive
  type `PipelineError`; `except`-and-return control flow becomes `Except`
  plumbing.
* In `process_ticker` the source returns `False` unconditionally (line 202)
  before its retry block (lines 204-211); that block is unreachable, so the
  embedding, which follows Python's operational semantics, contains no retry
  sleep and no recursive re-invocation.
-/

namespace StockPipeline

/-- A pandas data frame: column labels and rows of integer cells. The column
flattening and `reset_index` normalization done in `load_and_process_data`
happen before any behavior the claims mention, so `Env.download` yields the
already-normalized frame. -/
structure DataFrame where
  columns : List String
  rows : List (List Int)
deriving DecidableEq

/-- pandas `DataFrame.empty`: true iff one of the axes has length zero. -/
def DataFrame.empty (df : DataFrame) : Bool :=
  df.rows.isEmpty || df.columns.isEmpty

/-- Column projection `df[c]` (only used after the presence check passed). -/
def DataFrame.col (df : DataFrame) (c : String) : List Int :=
  match df.columns.findIdx? (fun x => x == c) with
  | some i => df.rows.map (fun r => r.getD i 0)
  | none => []

/-- Closed model of the exception taxonomy raised and caught in
`data_ingestion.py` (download, validation, upload stage failures). -/
inductive PipelineError where
  | dataDownloadError (ticker : String)
  | dataValidationError (ticker : String) (missing : List String)
  | gcsUploadError (ticker : String)
deriving DecidableEq

/-- Observable side effects of one pipeline run, in program order. -/
inductive Event where
  | fetchCall (ticker : String)
  | warnNegative (column ticker : String)
  | uploadCall (ticker path content contentType : String)
  | rateLimitSleep (seconds : Nat)
  | retrySleep (seconds : Nat)
  | attemptStart (ticker : String) (attempt : Nat)
  | lastElemAccess
  | summary (total succeeded failedCount : Nat)
deriving DecidableEq

def Event.isFetch : Event → Bool
  | Event.fetchCall _ => true
  | _ => false

def Event.isWarn : Event → Bool
  | Event.warnNegative _ _ => true
  | _ => false

def Event.isUpload : Event → Bool
  | Event.uploadCall _ _ _ _ => true
  | _ => false

def Event.isRateLimitSleep : Event → Bool
  | Event.rateLimitSleep _ => true
  | _ => false

def Event.isRetrySleep : Event → Bool
  | Event.retrySleep _ => true
  | _ => false

def Event.isAttemptStart : Event → Bool
  | Event.attemptStart _ _ => true
  | _ => false

def Event.isLastElemAccess : Event → Bool
  | Event.lastElemAccess => true
  | _ => false

/-- `StorageConfig` of `config/settings.py` (defaults: gcs, raw, csv,
timestamps on, index on). -/
structure StorageConfig where
  provider : String
  raw_data_path : String
  file_format : String
  include_timestamp : Bool
  include_index : Bool
deriving DecidableEq

/-- `PipelineConfig` of `config/settings.py`. -/
structure PipelineConfig where
  rate_limit_delay : Nat
  retry_attempts : Nat
  retry_delay : Nat
  enable_validation : Bool
  enable_logging : Bool
deriving DecidableEq

/-- The slice of the loaded `Config` the run-time code reads. -/
structure Config where
  storage : StorageConfig
  pipeline : PipelineConfig
deriving DecidableEq

/-- Closed value set of `StorageConfig.validate_format`. -/
def valid_formats : List String := ["csv", "parquet", "json"]

/-- The `field_validator` on `StorageConfig.file_format`: accept a value in
the closed set, reject anything else at configuration load time. -/
def validate_format (v : String) : Except String String :=
  if v ∈ valid_formats then Except.ok v
  else Except.error "File format must be one of csv, parquet, json"

/-- External world of one run. -/
structure Env where
  download : String → Except Unit DataFrame
  nowString : String
  uploadOutcome : String → String → Except Unit Unit

/-- `load_and_process_data` (lines 82-116): one provider call; a raising call
or an empty frame becomes a `dataDownloadError`, otherwise the frame is
returned. -/
def load_and_process_data (env : Env) (t : String) :
    Except PipelineError DataFrame × List Event :=
  let result : Except PipelineError DataFrame :=
    match env.download t with
    | Except.error _ => Except.error (PipelineError.dataDownloadError t)
    | Except.ok df =>
      if df.empty then Except.error (PipelineError.dataDownloadError t)
      else Except.ok df
  (result, [Event.fetchCall t])

/-- Required columns checked by `_validate_data`. -/
def required_columns : List String := ["Open", "High", "Low", "Close", "Volume"]

/-- Price columns scanned for negative values by `_validate_data`. -/
def price_columns : List String := ["Open", "High", "Low", "Close"]

/-- Set difference `required_columns - set(df.columns)` as the list of
required columns absent from the frame. -/
def missing_columns (df : DataFrame) : List String :=
  required_columns.filter (fun c => !(df.columns.contains c))

/-- Price columns that contain at least one negative value. -/
def negative_warning_columns (df : DataFrame) : List String :=
  price_columns.filter (fun c => (df.col c).any (fun v => decide (v < 0)))

/-- `_validate_data` (lines 118-144): a non-empty missing-column set raises a
`dataValidationError`; negative prices only emit warnings. -/
def validate_data (df : DataFrame) (t : String) :
    Except PipelineError Unit × List Event :=
  if missing_columns df ≠ [] then
    (Except.error (PipelineError.dataValidationError t (missing_columns df)), [])
  else
    (Except.ok (), (negative_warning_columns df).map (fun c => Event.warnNegative c t))

/-- Filename policy of `upload_to_gcs` (lines 150-154). -/
def file_name (cfg : StorageConfig) (now : String) (t : String) : String :=
  if cfg.include_timestamp then t ++ "_" ++ now ++ ".csv" else t ++ ".csv"

/-- Blob path `{raw_data_path}/{ticker}/{file_name}` (line 157). -/
def blob_path (cfg : StorageConfig) (now : String) (t : String) : String :=
  cfg.raw_data_path ++ "/" ++ t ++ "/" ++ file_name cfg now t

/-- Line 161: `pd.DataFrame(df.values).to_csv(header=False, index=False)` —
rows of comma-separated values, one line each, no header row, no index
column; the column labels are discarded by the `df.values` round trip. -/
def csv_of_values (df : DataFrame) : String :=
  String.join (df.rows.map (fun r => String.intercalate "," (r.map toString) ++ "\n"))

/-- `upload_to_gcs` (lines 147-183): compute the path, serialize, write with
content type text/csv; a raising write becomes a `gcsUploadError`. -/
def upload_to_gcs (env : Env) (cfg : Config) (t : String) (df : DataFrame) :
    Except PipelineError String × List Event :=
  let path := blob_path cfg.storage env.nowString t
  let result : Except PipelineError String :=
    match env.uploadOutcome t path with
    | Except.ok _ => Except.ok path
    | Except.error _ => Except.error (PipelineError.gcsUploadError t)
  (result, [Event.uploadCall t path (csv_of_values df) "text/csv"])

/-- `process_ticker` (lines 186-215): fetch, validate, upload in order; the
first failing stage short-circuits to `false`; every error is caught at this
boundary.  The retry block after the unconditional `return False` is dead
code and therefore absent. -/
def process_ticker (env : Env) (cfg : Config) (t : String) (retry : Nat) :
    Bool × List Event :=
  match (load_and_process_data env t).1 with
  | Except.error _ =>
    (false, Event.attemptStart t (retry + 1) :: (load_and_process_data env t).2)
  | Except.ok df =>
    match (validate_data df t).1 with
    | Except.error _ =>
      (false, Event.attemptStart t (retry + 1) ::
        ((load_and_process_data env t).2 ++ (validate_data df t).2))
    | Except.ok _ =>
      match (upload_to_gcs env cfg t df).1 with
      | Except.ok _ =>
        (true, Event.attemptStart t (retry + 1) ::
          ((load_and_process_data env t).2 ++ (validate_data df t).2 ++
            (upload_to_gcs env cfg t df).2))
      | Except.error _ =>
        (false, Event.attemptStart t (retry + 1) ::
          ((load_and_process_data env t).2 ++ (validate_data df t).2 ++
            (upload_to_gcs env cfg t df).2))

/-- Boolean outcome of one ticker, as the run loop consumes it. -/
def proc_ok (env : Env) (cfg : Config) (t : String) : Bool :=
  (process_ticker env cfg t 0).1

/-- Body of the `for ticker in tickers` loop of `run` (lines 228-237): process
the ticker, append it to the matching partition, then evaluate the comparison
with `tickers[-1]` (one `lastElemAccess` event per iteration) and sleep
`rate_limit_delay` seconds unless the value equals the last element. -/
def run_loop (env : Env) (cfg : Config) (last : String) :
    List String → List String × List String × List Event
  | [] => ([], [], [])
  | t :: ts =>
    let r := process_ticker env cfg t 0
    let sleeps :=
      if t = last then [] else [Event.rateLimitSleep cfg.pipeline.rate_limit_delay]
    let rest := run_loop env cfg last ts
    ((if r.1 then t :: rest.1 else rest.1),
     (if r.1 then rest.2.1 else t :: rest.2.1),
     r.2 ++ Event.lastElemAccess :: sleeps ++ rest.2.2)

/-- `run` (lines 217-255) on an explicitly supplied ticker list: the loop
above followed by the summary over the accumulated partitions. -/
def run (env : Env) (cfg : Config) (tickers : List String) :
    (List String × List String) × List Event :=
  let r := run_loop env cfg (tickers.getLastD "") tickers
  ((r.1, r.2.1), r.2.2 ++ [Event.summary tickers.length r.1.length r.2.1.length])

/-! Concrete values used by witnesses and counterexamples. -/

/-- Configuration with the `settings.py` field defaults. -/
def cfgDefault : Config := ⟨⟨"gcs", "raw", "csv", true, true⟩, ⟨2, 1, 5, true, true⟩⟩

/-- A well-formed one-row frame as produced by the fetch normalization. -/
def goodFrame : DataFrame :=
  ⟨["Date", "Open", "High", "Low", "Close", "Volume"], [[0, 11, 12, 9, 10, 1000]]⟩

/-- A well-formed frame with a negative Open price. -/
def negFrame : DataFrame :=
  ⟨["Date", "Open", "High", "Low", "Close", "Volume"], [[0, -1, 12, 9, 10, 1000]]⟩

/-- World where every download succeeds with `goodFrame` and uploads succeed. -/
def envOK : Env := ⟨fun _ => Except.ok goodFrame, "20250101_120000", fun _ _ => Except.ok ()⟩

/-- World where every download returns an empty result set. -/
def envEmptyFetch : Env := ⟨fun _ => Except.ok ⟨[], []⟩, "20250101_120000", fun _ _ => Except.ok ()⟩

/-- World where every download raises. -/
def envAllFail : Env := ⟨fun _ => Except.error (), "20250101_120000", fun _ _ => Except.ok ()⟩

/-- World where downloads yield the negative-price frame and uploads succeed. -/
def envNeg : Env := ⟨fun _ => Except.ok negFrame, "20250101_120000", fun _ _ => Except.ok ()⟩

/-! Helper lemmas about the stage functions. -/

lemma load_events (env : Env) (t : String) :
    (load_and_process_data env t).2 = [Event.fetchCall t] := rfl

lemma upload_events (env : Env) (cfg : Config) (t : String) (df : DataFrame) :
    (upload_to_gcs env cfg t df).2
      = [Event.uploadCall t (blob_path cfg.storage env.nowString t)
          (csv_of_values df) "text/csv"] := rfl

/-- `validate_data` either rejects on missing columns with no events, or
accepts and emits exactly the negative-price warnings. -/
lemma validate_data_shape (df : DataFrame) (t : String) :
    validate_data df t
      = (Except.error (PipelineError.dataValidationError t (missing_columns df)), [])
    ∨ validate_data df t
      = (Except.ok (), (negative_warning_columns df).map (fun c => Event.warnNegative c t)) := by
  unfold validate_data
  by_cases hm : missing_columns df = []
  · right; simp [hm]
  · left; simp [hm]

/-- Shape of the observable trace of one `process_ticker` call: one attempt
log line, then exactly one provider call, then only warnings and upload
events. -/
lemma process_ticker_trace (env : Env) (cfg : Config) (t : String) (r : Nat) :
    ∃ tail, (process_ticker env cfg t r).2
        = Event.attemptStart t (r + 1) :: Event.fetchCall t :: tail ∧
      ∀ e ∈ tail, e.isWarn = true ∨ e.isUpload = true := by
  unfold process_ticker
  cases hl : (load_and_process_data env t).1 with
  | error e1 =>
    refine ⟨[], by simp [load_events], ?_⟩
    intro e he
    simp at he
  | ok df =>
    dsimp only
    rcases validate_data_shape df t with hv | hv
    · rw [hv]
      refine ⟨[], by simp [load_events], ?_⟩
      intro e he
      simp at he
    · rw [hv]
      cases hu : (upload_to_gcs env cfg t df).1 with
      | ok p =>
        refine ⟨(negative_warning_columns df).map (fun c => Event.warnNegative c t)
          ++ (upload_to_gcs env cfg t df).2, by simp [load_events], ?_⟩
        intro e he
        rcases List.mem_append.1 he with h | h
        · rcases List.mem_map.1 h with ⟨c, _, rfl⟩
          left; rfl
        · rw [upload_events] at h
          simp at h
          subst h
          right; rfl
      | error e3 =>
        refine ⟨(negative_warning_columns df).map (fun c => Event.warnNegative c t)
          ++ (upload_to_gcs env cfg t df).2, by simp [load_events], ?_⟩
        intro e he
        rcases List.mem_append.1 he with h | h
        · rcases List.mem_map.1 h with ⟨c, _, rfl⟩
          left; rfl
        · rw [upload_events] at h
          simp at h
          subst h
          right; rfl

/-- Warning and upload events are not sleeps, attempt logs, fetches or
last-element accesses. -/
lemma warn_or_upload_kind (e : Event) (h : e.isWarn = true ∨ e.isUpload = true) :
    e.isRetrySleep = false ∧ e.isRateLimitSleep = false ∧ e.isLastElemAccess = false ∧
      e.isAttemptStart = false ∧ e.isFetch = false := by
  cases e <;> simp_all [Event.isWarn, Event.isUpload, Event.isRetrySleep,
    Event.isRateLimitSleep, Event.isLastElemAccess, Event.isAttemptStart, Event.isFetch]

/-- Per-call event counts: one attempt, one fetch, no retry sleep, no
rate-limit sleep, no last-element access. -/
lemma process_ticker_counts (env : Env) (cfg : Config) (t : String) (r : Nat) :
    (process_ticker env cfg t r).2.countP Event.isAttemptStart = 1 ∧
    (process_ticker env cfg t r).2.countP Event.isFetch = 1 ∧
    (process_ticker env cfg t r).2.countP Event.isRetrySleep = 0 ∧
    (process_ticker env cfg t r).2.countP Event.isRateLimitSleep = 0 ∧
    (process_ticker env cfg t r).2.countP Event.isLastElemAccess = 0 := by
  rcases process_ticker_trace env cfg t r with ⟨tail, heq, htail⟩
  have hA : tail.countP Event.isAttemptStart = 0 :=
    List.countP_eq_zero.2 (fun e he => by simp [(warn_or_upload_kind e (htail e he)).2.2.2.1])
  have hF : tail.countP Event.isFetch = 0 :=
    List.countP_eq_zero.2 (fun e he => by simp [(warn_or_upload_kind e (htail e he)).2.2.2.2])
  have hRS : tail.countP Event.isRetrySleep = 0 :=
    List.countP_eq_zero.2 (fun e he => by simp [(warn_or_upload_kind e (htail e he)).1])
  have hRL : tail.countP Event.isRateLimitSleep = 0 :=
    List.countP_eq_zero.2 (fun e he => by simp [(warn_or_upload_kind e (htail e he)).2.1])
  have hLA : tail.countP Event.isLastElemAccess = 0 :=
    List.countP_eq_zero.2 (fun e he => by simp [(warn_or_upload_kind e (htail e he)).2.2.1])
  rw [heq]
  simp [List.countP_cons, hA, hF, hRS, hRL, hLA,
    Event.isAttemptStart, Event.isFetch, Event.isRetrySleep,
    Event.isRateLimitSleep, Event.isLastElemAccess]

/-- `process_ticker` yields `true` exactly when all three stages succeed. -/
lemma process_true_iff (env : Env) (cfg : Config) (t : String) (r : Nat) :
    (process_ticker env cfg t r).1 = true ↔
      ∃ df, (load_and_process_data env t).1 = Except.ok df ∧
        (validate_data df t).1 = Except.ok () ∧
        ∃ p, (upload_to_gcs env cfg t df).1 = Except.ok p := by
  unfold process_ticker
  cases hl : (load_and_process_data env t).1 with
  | error e1 => simp [hl]
  | ok df =>
    dsimp only
    rcases validate_data_shape df t with hv | hv
    · rw [hv]
      simp [hl, hv]
    · rw [hv]
      cases hu : (upload_to_gcs env cfg t df).1 with
      | ok p => simp [hl, hv, hu]
      | error e3 => simp [hl, hv, hu]

/-! Lemmas about the run loop. -/

lemma run_loop_successful (env : Env) (cfg : Config) (last : String) (ts : List String) :
    (run_loop env cfg last ts).1 = ts.filter (proc_ok env cfg) := by
  induction ts with
  | nil => rfl
  | cons t ts ih =>
    by_cases h : (process_ticker env cfg t 0).1 = true <;>
      simp [run_loop, List.filter_cons, proc_ok, h, ih]

lemma run_loop_failed (env : Env) (cfg : Config) (last : String) (ts : List String) :
    (run_loop env cfg last ts).2.1 = ts.filter (fun x => !(proc_ok env cfg x)) := by
  induction ts with
  | nil => rfl
  | cons t ts ih =>
    by_cases h : (process_ticker env cfg t 0).1 = true <;>
      simp [run_loop, List.filter_cons, proc_ok, h, ih]

lemma run_loop_rate_limit_count (env : Env) (cfg : Config) (last : String) (ts : List String) :
    (run_loop env cfg last ts).2.2.countP Event.isRateLimitSleep
      = (ts.filter (fun x => decide (x ≠ last))).length := by
  induction ts with
  | nil => rfl
  | cons t ts ih =>
    have hz := (process_ticker_counts env cfg t 0).2.2.2.1
    by_cases h : t = last
    · subst h
      simp [run_loop, List.countP_append, List.countP_cons, hz, ih,
        List.filter_cons, Event.isRateLimitSleep, Event.isLastElemAccess]
    · simp [run_loop, h, List.countP_append, List.countP_cons, hz, ih,
        List.filter_cons, Event.isRateLimitSleep, Event.isLastElemAccess]

/-- Claim C4 (amended): the rate-limit wait happens exactly once per
processed ticker whose symbol differs from the list's last element; when the
final ticker's value occurs nowhere earlier (e.g. all tickers distinct) this
equals `len(tickers) - 1`, but duplicates of the last ticker suppress waits. -/
theorem rate_limit_wait_count (env : Env) (cfg : Config) (tickers : List String) :
    ((run env cfg tickers).2.countP Event.isRateLimitSleep
      = (tickers.filter (fun x => decide (x ≠ tickers.getLastD ""))).length) ∧
    (∀ start lastT, tickers = start ++ [lastT] → lastT ∉ start →
      (run env cfg tickers).2.countP Event.isRateLimitSleep = tickers.length - 1) := by
  have hcount : (run env cfg tickers).2.countP Event.isRateLimitSleep
      = (tickers.filter (fun x => decide (x ≠ tickers.getLastD ""))).length := by
    simp [run, List.countP_append, List.countP_cons, run_loop_rate_limit_count,
      Event.isRateLimitSleep]
  refine ⟨hcount, ?_⟩
  rintro start lastT rfl hnot
  rw [hcount]
  have hlast : (start ++ [lastT]).getLastD "" = lastT := by simp
  rw [hlast, List.filter_append]
  have h1 : start.filter (fun x => decide (x ≠ lastT)) = start := by
    rw [List.filter_eq_self]
    intro a ha
    simp only [decide_eq_true_eq]
    intro heq
    exact hnot (heq ▸ ha)
  have h2 : ([lastT] : List String).filter (fun x => decide (x ≠ lastT)) = [] := by simp
  rw [h1, h2]
  simp

/-- Counterexample for C4 as stated: a run over two equal tickers performs
zero rate-limit waits, not `len - 1 = 1`, because the loop compares each
ticker by value with `tickers[-1]`. -/
theorem rate_limit_wait_len_minus_one_false :
    ¬ ((run envAllFail cfgDefault ["AAA", "AAA"]).2.countP Event.isRateLimitSleep
        = (["AAA", "AAA"] : List String).length - 1) := by decide

/-- Witness for C4's amended statement on a duplicate-free list. -/
theorem rate_limit_wait_count_witness :
    (run envAllFail cfgDefault ["AAA", "BBB"]).2.countP Event.isRateLimitSleep
      = (["AAA", "BBB"] : List String).length - 1 :=
  (rate_limit_wait_count envAllFail cfgDefault ["AAA", "BBB"]).2 ["AAA"] "BBB" rfl
    (by decide)

/-- Claim C9: a run over an explicitly supplied empty ticker list completes
normally with empty partitions, the total-0 summary, no provider call, no
upload, no rate-limit wait, and no evaluation of the last-element access. -/
theorem run_empty_list_no_ops (env : Env) (cfg : Config) :
    run env cfg [] = (([], []), [Event.summary 0 0 0]) ∧
    (run env cfg []).2.countP Event.isFetch = 0 ∧
    (run env cfg []).2.countP Event.isUpload = 0 ∧
    (run env cfg []).2.countP Event.isRateLimitSleep = 0 ∧
    (run env cfg []).2.countP Event.isLastElemAccess = 0 :=
  ⟨rfl, rfl, rfl, rfl, rfl⟩

/-- Claim C2: `process_ticker` is a total boolean function of its stages —
every stage failure is caught at its boundary and becomes the result
`false`; the result is `true` exactly when download, validation and upload
all succeed. -/
theorem process_ticker_boolean_contract (env : Env) (cfg : Config) (t : String) (r : Nat) :
    (process_ticker env cfg t r).1 = true ↔
      ∃ df, (load_and_process_data env t).1 = Except.ok df ∧
        (validate_data df t).1 = Except.ok () ∧
        ∃ p, (upload_to_gcs env cfg t df).1 = Except.ok p :=
  process_true_iff env cfg t r

/-- Claim C5: one call to `process_ticker` performs exactly one attempt and
one provider call, never sleeps `retry_delay`, and unless every stage
succeeded its outcome is `false` — the dead retry branch after the
unconditional early return is never executed. -/
theorem process_single_attempt_no_retry (env : Env) (cfg : Config) (t : String) (r : Nat) :
    (process_ticker env cfg t r).2.countP Event.isAttemptStart = 1 ∧
    (process_ticker env cfg t r).2.countP Event.isFetch = 1 ∧
    (process_ticker env cfg t r).2.countP Event.isRetrySleep = 0 ∧
    ((∃ df, (load_and_process_data env t).1 = Except.ok df ∧
        (validate_data df t).1 = Except.ok () ∧
        ∃ p, (upload_to_gcs env cfg t df).1 = Except.ok p) ∨
      (process_ticker env cfg t r).1 = false) := by
  refine ⟨(process_ticker_counts env cfg t r).1, (process_ticker_counts env cfg t r).2.1,
    (process_ticker_counts env cfg t r).2.2.1, ?_⟩
  by_cases hres : (process_ticker env cfg t r).1 = true
  · exact Or.inl ((process_true_iff env cfg t r).1 hres)
  · exact Or.inr (by simpa using hres)

/-- Claim C3: when the provider returns an empty result set, or a required
column is missing, `process_ticker` returns `false` and the upload stage is
never invoked. -/
theorem failed_stage_skips_upload (env : Env) (cfg : Config) (t : String) (r : Nat)
    (df : DataFrame) (hdl : env.download t = Except.ok df)
    (h : df.empty = true ∨ missing_columns df ≠ []) :
    (process_ticker env cfg t r).1 = false ∧
    (process_ticker env cfg t r).2.countP Event.isUpload = 0 := by
  by_cases he : df.empty = true
  · have hl1 : (load_and_process_data env t).1
        = Except.error (PipelineError.dataDownloadError t) := by
      unfold load_and_process_data
      simp [hdl, he]
    unfold process_ticker
    rw [hl1]
    exact ⟨rfl, rfl⟩
  · have he' : df.empty = false := by simpa using he
    have hmiss : missing_columns df ≠ [] := by
      rcases h with h | h
      · exact absurd h he
      · exact h
    have hl1 : (load_and_process_data env t).1 = Except.ok df := by
      unfold load_and_process_data
      simp [hdl, he']
    have hv1 : validate_data df t
        = (Except.error (PipelineError.dataValidationError t (missing_columns df)), []) := by
      unfold validate_data
      simp [hmiss]
    unfold process_ticker
    rw [hl1]
    dsimp only
    rw [hv1]
    exact ⟨rfl, rfl⟩

/-- Witness for C3: an empty fetch result yields `false` with no upload. -/
theorem failed_stage_skips_upload_witness :
    (process_ticker envEmptyFetch cfgDefault "TSLA" 0).1 = false ∧
    (process_ticker envEmptyFetch cfgDefault "TSLA" 0).2.countP Event.isUpload = 0 :=
  failed_stage_skips_upload envEmptyFetch cfgDefault "TSLA" 0 ⟨[], []⟩ rfl (Or.inl rfl)

/-- Claim C8: negative price values in a table that passes the
required-column check do not fail validation and do not block the upload
stage — they only emit warning diagnostics. -/
theorem negative_prices_warn_not_fail (env : Env) (cfg : Config) (t : String)
    (df : DataFrame)
    (hdl : env.download t = Except.ok df)
    (hne : df.empty = false)
    (hcols : missing_columns df = [])
    (hneg : negative_warning_columns df ≠ [])
    (hup : env.uploadOutcome t (blob_path cfg.storage env.nowString t) = Except.ok ()) :
    (validate_data df t).1 = Except.ok () ∧
    (process_ticker env cfg t 0).1 = true ∧
    (process_ticker env cfg t 0).2.countP Event.isWarn ≠ 0 ∧
    (process_ticker env cfg t 0).2.countP Event.isUpload = 1 := by
  have hl1 : (load_and_process_data env t).1 = Except.ok df := by
    unfold load_and_process_data
    simp [hdl, hne]
  have hv1 : validate_data df t
      = (Except.ok (), (negative_warning_columns df).map
          (fun c => Event.warnNegative c t)) := by
    unfold validate_data
    simp [hcols]
  have hu1 : (upload_to_gcs env cfg t df).1
      = Except.ok (blob_path cfg.storage env.nowString t) := by
    unfold upload_to_gcs
    simp [hup]
  have hwarn : ((negative_warning_columns df).map
      (fun c => Event.warnNegative c t)).countP Event.isWarn
        = (negative_warning_columns df).length := by
    rw [List.countP_map]
    simp [Function.comp, Event.isWarn, List.countP_true]
  have hwup : ((negative_warning_columns df).map
      (fun c => Event.warnNegative c t)).countP Event.isUpload = 0 := by
    rw [List.countP_map]
    simp [Function.comp, Event.isUpload, List.countP_false]
  unfold process_ticker
  rw [hl1]
  dsimp only
  rw [hv1]
  dsimp only
  rw [hu1]
  refine ⟨rfl, rfl, ?_, ?_⟩
  · simp [load_events, upload_events, List.countP_append, List.countP_cons,
      hwarn, Event.isWarn, Event.isFetch, Event.isAttemptStart, Event.isUpload]
    intro hlen
    exact hneg hlen
  · simp [load_events, upload_events, List.countP_append, List.countP_cons,
      hwup, Event.isWarn, Event.isFetch, Event.isAttemptStart, Event.isUpload]

/-- Witness for C8 at the concrete negative-Open frame. -/
theorem negative_prices_warn_not_fail_witness :
    (validate_data negFrame "TSLA").1 = Except.ok () ∧
    (process_ticker envNeg cfgDefault "TSLA" 0).1 = true ∧
    (process_ticker envNeg cfgDefault "TSLA" 0).2.countP Event.isWarn ≠ 0 ∧
    (process_ticker envNeg cfgDefault "TSLA" 0).2.countP Event.isUpload = 1 :=
  negative_prices_warn_not_fail envNeg cfgDefault "TSLA" negFrame rfl rfl
    (by decide) (by decide) rfl

/-- Modelled from the spec: the serialization the spec ascribes to an
enabled `includeIndex` — a header row of the column labels (with the
leading cell for the index column) followed by every data row prefixed with
its synthetic numeric index.  The code in `upload_to_gcs` never consults
`include_index`; this definition exists only to compare the spec's words
against what the code writes. -/
def csv_with_header_and_index (df : DataFrame) : String :=
  String.intercalate "," ("" :: df.columns) ++ "\n" ++
    String.join (((List.range df.rows.length).zip df.rows).map
      (fun p => String.intercalate "," (toString p.1 :: p.2.map toString) ++ "\n"))

/-- Storage configuration differing from the default only in
`include_index := false`. -/
def cfgIndexOff : Config := ⟨⟨"gcs", "raw", "csv", true, false⟩, ⟨2, 1, 5, true, true⟩⟩

/-- Configuration differing from the default only in
`include_timestamp := false`. -/
def cfgNoTimestamp : Config := ⟨⟨"gcs", "raw", "csv", false, true⟩, ⟨2, 1, 5, true, true⟩⟩

/-- Counterexample for C6 as stated: with `include_index = true` the upload
writes the same raw-values serialization as with `include_index = false`,
and not the header-and-index form the spec promises for the enabled
setting — line 161 hardcodes `header=False, index=False`. -/
theorem include_index_not_honored :
    cfgDefault.storage.include_index = true ∧
    (upload_to_gcs envOK cfgDefault "TSLA" goodFrame).2
      = (upload_to_gcs envOK cfgIndexOff "TSLA" goodFrame).2 ∧
    ¬ ((upload_to_gcs envOK cfgDefault "TSLA" goodFrame).2
        = [Event.uploadCall "TSLA" (blob_path cfgDefault.storage envOK.nowString "TSLA")
            (csv_with_header_and_index goodFrame) "text/csv"]) := by
  refine ⟨rfl, rfl, ?_⟩
  decide

/-- Claim C6 (amended): the serialization the uploader writes is independent
of `include_index`; for every table it is always the raw comma-separated
column values, with no header row and no synthetic index column. -/
theorem serialization_ignores_include_index (env : Env) (cfg : Config) (t : String)
    (df : DataFrame) (b : Bool) :
    upload_to_gcs env
        ⟨⟨cfg.storage.provider, cfg.storage.raw_data_path, cfg.storage.file_format,
          cfg.storage.include_timestamp, b⟩, cfg.pipeline⟩ t df
      = upload_to_gcs env cfg t df ∧
    (upload_to_gcs env cfg t df).2
      = [Event.uploadCall t (blob_path cfg.storage env.nowString t)
          (csv_of_values df) "text/csv"] :=
  ⟨rfl, rfl⟩

/-- Counterexample for C7 as stated: two distinct invocations (environments
differing in their provider behavior) whose upload happens in the same
second-resolution instant compute the same object path even though
`include_timestamp` is true — same-second runs collide instead of getting
distinct paths. -/
theorem same_second_distinct_invocations_same_path :
    envOK.nowString = envAllFail.nowString ∧
    envOK ≠ envAllFail ∧
    cfgDefault.storage.include_timestamp = true ∧
    blob_path cfgDefault.storage envOK.nowString "TSLA"
      = blob_path cfgDefault.storage envAllFail.nowString "TSLA" := by
  refine ⟨rfl, ?_, rfl, rfl⟩
  intro h
  have h2 := congrArg (fun e => e.download "TSLA") h
  simp [envOK, envAllFail] at h2

/-- Claim C7 (amended): with `include_timestamp` enabled, two uploads of the
same ticker get distinct object paths exactly when their second-resolution
capture timestamps differ (same-second invocations produce the identical
path); with it disabled the path is always
`{raw_data_path}/{ticker}/{ticker}.csv`, so later writes overwrite. -/
theorem object_path_policy (cfg : StorageConfig) (t now1 now2 : String) :
    (cfg.include_timestamp = true →
      (blob_path cfg now1 t = blob_path cfg now2 t ↔ now1 = now2)) ∧
    (cfg.include_timestamp = false →
      blob_path cfg now1 t = cfg.raw_data_path ++ "/" ++ t ++ "/" ++ (t ++ ".csv")) := by
  constructor
  · intro hts
    unfold blob_path file_name
    rw [hts]
    simp only [if_true]
    constructor
    · intro h
      have hd := congrArg String.data h
      simp only [String.data_append, List.append_assoc] at hd
      have h1 := List.append_cancel_left hd
      have h2 := List.append_cancel_left h1
      have h3 := List.append_cancel_left h2
      have h4 := List.append_cancel_left h3
      have h5 := List.append_cancel_left h4
      have h6 := List.append_cancel_left h5
      have h7 := List.append_cancel_right h6
      cases now1
      cases now2
      exact congrArg String.mk h7
    · intro h
      rw [h]
  · intro hts
    unfold blob_path file_name
    simp [hts]

/-- Witness for C7's amended statement at concrete timestamps. -/
theorem object_path_policy_witness :
    (blob_path cfgDefault.storage "20250101_120000" "TSLA"
        = blob_path cfgDefault.storage "20250101_120001" "TSLA"
      ↔ ("20250101_120000" : String) = "20250101_120001") ∧
    blob_path cfgNoTimestamp.storage "20250101_120000" "TSLA"
      = cfgNoTimestamp.storage.raw_data_path ++ "/" ++ "TSLA" ++ "/" ++ ("TSLA" ++ ".csv") :=
  ⟨(object_path_policy cfgDefault.storage "TSLA" "20250101_120000" "20250101_120001").1 rfl,
   (object_path_policy cfgNoTimestamp.storage "TSLA" "20250101_120000" "x").2 rfl⟩

/-- Claim C10: the upload path never consults `file_format` — for any
configured format the serialization, path and result are unchanged, the
object name ends in `.csv`, the write content type is `text/csv`, and the
format value is only checked (against csv, parquet, json) at configuration
load time by `validate_format`. -/
theorem upload_format_fixed_csv (env : Env) (cfg : Config) (t : String) (df : DataFrame)
    (fmt : String) :
    upload_to_gcs env
        ⟨⟨cfg.storage.provider, cfg.storage.raw_data_path, fmt,
          cfg.storage.include_timestamp, cfg.storage.include_index⟩, cfg.pipeline⟩ t df
      = upload_to_gcs env cfg t df ∧
    (∃ s, blob_path cfg.storage env.nowString t = s ++ ".csv") ∧
    (∀ p c ct, Event.uploadCall t p c ct ∈ (upload_to_gcs env cfg t df).2 →
      ct = "text/csv" ∧ c = csv_of_values df) ∧
    (∀ v, validate_format v = Except.ok v ↔ v ∈ valid_formats) := by
  refine ⟨rfl, ?_, ?_, ?_⟩
  · unfold blob_path file_name
    by_cases hts : cfg.storage.include_timestamp = true
    · refine ⟨cfg.storage.raw_data_path ++ "/" ++ t ++ "/" ++ (t ++ "_" ++ env.nowString), ?_⟩
      simp [hts, String.append_assoc]
    · refine ⟨cfg.storage.raw_data_path ++ "/" ++ t ++ "/" ++ t, ?_⟩
      simp [hts, String.append_assoc]
  · intro p c ct h
    rw [upload_events] at h
    simp at h
    exact ⟨h.2.2, h.2.1⟩
  · intro v
    by_cases hv : v ∈ valid_formats <;> simp [validate_format, hv]

/-- Witness for C10: the format check accepts parquet at load time, yet the
path computed for the upload still ends in `.csv`. -/
theorem upload_format_fixed_csv_witness :
    (∃ s, blob_path cfgDefault.storage envOK.nowString "TSLA" = s ++ ".csv") ∧
    validate_format "parquet" = Except.ok "parquet" :=
  ⟨(upload_format_fixed_csv envOK cfgDefault "TSLA" goodFrame "json").2.1,
   ((upload_format_fixed_csv envOK cfgDefault "TSLA" goodFrame "json").2.2.2 "parquet").2
     (by decide)⟩

/-!
Per-call world model.  The record `Env` above gives every occurrence of a
ticker the same download/write outcome, which is adequate for the per-call
and trace-shape properties but not for run-level aggregation over lists with
duplicate tickers: the real provider and storage are separate calls per loop
iteration (back to back, with the line-235 comparison even suppressing the
sleep between two occurrences of the final ticker), and one occurrence can
succeed where the next fails.  `CallSeq` therefore indexes the download and
write outcomes by a call counter threaded through the run, so repeated calls
for the same ticker may differ.  `Env` is the special case in which the
outcome sequences are constant per ticker.
-/

namespace PerCall

/-- External world with per-call outcomes: the k-th provider call and the
k-th storage write each have their own result. -/
structure CallSeq where
  download : Nat → String → Except Unit DataFrame
  nowString : String
  uploadOutcome : Nat → String → String → Except Unit Unit

/-- Progress counters: provider calls and storage writes made so far. -/
structure CallState where
  dl : Nat
  ul : Nat
deriving DecidableEq

/-- `load_and_process_data` against the per-call world: consumes the next
download outcome. -/
def load_and_process_data (w : CallSeq) (s : CallState) (t : String) :
    Except PipelineError DataFrame × CallState × List Event :=
  let result : Except PipelineError DataFrame :=
    match w.download s.dl t with
    | Except.error _ => Except.error (PipelineError.dataDownloadError t)
    | Except.ok df =>
      if df.empty then Except.error (PipelineError.dataDownloadError t)
      else Except.ok df
  (result, ⟨s.dl + 1, s.ul⟩, [Event.fetchCall t])

/-- `upload_to_gcs` against the per-call world: consumes the next write
outcome.  Validation is pure and shares `validate_data` above. -/
def upload_to_gcs (w : CallSeq) (s : CallState) (cfg : Config) (t : String)
    (df : DataFrame) : Except PipelineError String × CallState × List Event :=
  let path := blob_path cfg.storage w.nowString t
  let result : Except PipelineError String :=
    match w.uploadOutcome s.ul t path with
    | Except.ok _ => Except.ok path
    | Except.error _ => Except.error (PipelineError.gcsUploadError t)
  (result, ⟨s.dl, s.ul + 1⟩, [Event.uploadCall t path (csv_of_values df) "text/csv"])

/-- `process_ticker` against the per-call world: the same fetch → validate →
upload short-circuit control flow as above, threading the call counters. -/
def process_ticker (w : CallSeq) (cfg : Config) (s : CallState) (t : String)
    (retry : Nat) : Bool × CallState × List Event :=
  match (load_and_process_data w s t).1 with
  | Except.error _ =>
    (false, (load_and_process_data w s t).2.1,
      Event.attemptStart t (retry + 1) :: (load_and_process_data w s t).2.2)
  | Except.ok df =>
    match (validate_data df t).1 with
    | Except.error _ =>
      (false, (load_and_process_data w s t).2.1,
        Event.attemptStart t (retry + 1) ::
          ((load_and_process_data w s t).2.2 ++ (validate_data df t).2))
    | Except.ok _ =>
      match (upload_to_gcs w (load_and_process_data w s t).2.1 cfg t df).1 with
      | Except.ok _ =>
        (true, (upload_to_gcs w (load_and_process_data w s t).2.1 cfg t df).2.1,
          Event.attemptStart t (retry + 1) ::
            ((load_and_process_data w s t).2.2 ++ (validate_data df t).2 ++
              (upload_to_gcs w (load_and_process_data w s t).2.1 cfg t df).2.2))
      | Except.error _ =>
        (false, (upload_to_gcs w (load_and_process_data w s t).2.1 cfg t df).2.1,
          Event.attemptStart t (retry + 1) ::
            ((load_and_process_data w s t).2.2 ++ (validate_data df t).2 ++
              (upload_to_gcs w (load_and_process_data w s t).2.1 cfg t df).2.2))

/-- Accumulated outcome of the run loop in the per-call world. -/
structure RunAcc where
  successful : List String
  failed : List String
  state : CallState
  events : List Event
deriving DecidableEq

/-- The `for ticker in tickers` loop of `run`, per-call world. -/
def run_loop (w : CallSeq) (cfg : Config) (last : String) (s : CallState) :
    List String → RunAcc
  | [] => ⟨[], [], s, []⟩
  | t :: ts =>
    let r := process_ticker w cfg s t 0
    let sleeps :=
      if t = last then [] else [Event.rateLimitSleep cfg.pipeline.rate_limit_delay]
    let rest := run_loop w cfg last r.2.1 ts
    ⟨if r.1 then t :: rest.successful else rest.successful,
     if r.1 then rest.failed else t :: rest.failed,
     rest.state,
     r.2.2 ++ Event.lastElemAccess :: sleeps ++ rest.events⟩

/-- `run` on an explicitly supplied ticker list, per-call world. -/
def run (w : CallSeq) (cfg : Config) (tickers : List String) : RunAcc :=
  let r := run_loop w cfg (tickers.getLastD "") ⟨0, 0⟩ tickers
  ⟨r.successful, r.failed, r.state,
    r.events ++ [Event.summary tickers.length r.successful.length r.failed.length]⟩

/-- A world whose first provider call succeeds with `goodFrame` and whose
later provider calls all raise; writes always succeed. -/
def wFlaky : CallSeq :=
  ⟨fun k _ => if k = 0 then Except.ok goodFrame else Except.error (),
   "20250101_120000", fun _ _ _ => Except.ok ()⟩

lemma run_loop_mem (w : CallSeq) (cfg : Config) (last : String) (ts : List String) :
    ∀ s x, (x ∈ (run_loop w cfg last s ts).successful ∨
        x ∈ (run_loop w cfg last s ts).failed) ↔ x ∈ ts := by
  induction ts with
  | nil => intro s x; simp [run_loop]
  | cons t ts ih =>
    intro s x
    have ih1 := ih (process_ticker w cfg s t 0).2.1 x
    by_cases h : (process_ticker w cfg s t 0).1 = true <;>
      · simp [run_loop, h, List.mem_cons]
        tauto

lemma run_loop_sub_successful (w : CallSeq) (cfg : Config) (last : String)
    (ts : List String) :
    ∀ s, List.Sublist (run_loop w cfg last s ts).successful ts := by
  induction ts with
  | nil => intro s; simp [run_loop]
  | cons t ts ih =>
    intro s
    by_cases h : (process_ticker w cfg s t 0).1 = true
    · simpa [run_loop, h] using List.Sublist.cons₂ t (ih _)
    · simpa [run_loop, h] using List.Sublist.cons t (ih _)

lemma run_loop_sub_failed (w : CallSeq) (cfg : Config) (last : String)
    (ts : List String) :
    ∀ s, List.Sublist (run_loop w cfg last s ts).failed ts := by
  induction ts with
  | nil => intro s; simp [run_loop]
  | cons t ts ih =>
    intro s
    by_cases h : (process_ticker w cfg s t 0).1 = true
    · simpa [run_loop, h] using List.Sublist.cons t (ih _)
    · simpa [run_loop, h] using List.Sublist.cons₂ t (ih _)

lemma run_loop_length (w : CallSeq) (cfg : Config) (last : String) (ts : List String) :
    ∀ s, (run_loop w cfg last s ts).successful.length
        + (run_loop w cfg last s ts).failed.length = ts.length := by
  induction ts with
  | nil => intro s; simp [run_loop]
  | cons t ts ih =>
    intro s
    have ih1 := ih (process_ticker w cfg s t 0).2.1
    by_cases h : (process_ticker w cfg s t 0).1 = true <;>
      · simp [run_loop, h]
        omega

lemma run_loop_count (w : CallSeq) (cfg : Config) (last : String) (ts : List String) :
    ∀ s x, (run_loop w cfg last s ts).successful.count x
        + (run_loop w cfg last s ts).failed.count x = ts.count x := by
  induction ts with
  | nil => intro s x; simp [run_loop]
  | cons t ts ih =>
    intro s x
    have ih1 := ih (process_ticker w cfg s t 0).2.1 x
    by_cases h : (process_ticker w cfg s t 0).1 = true <;>
      · simp [run_loop, h, List.count_cons]
        omega

/-- Counterexample for C1 as stated: with per-call outcomes (first download
succeeds, second raises — two back-to-back provider calls, with no sleep in
between because the duplicate equals `tickers[-1]`), the run over
`['AAA', 'AAA']` appends 'AAA' to both lists, so the successful and failed
sets intersect. -/
theorem run_duplicate_ticker_overlap :
    "AAA" ∈ (run wFlaky cfgDefault ["AAA", "AAA"]).successful ∧
    "AAA" ∈ (run wFlaky cfgDefault ["AAA", "AAA"]).failed := by decide

/-- Claim C1 (amended): `run` partitions the input occurrence-wise — the
successful and failed lists are order-preserving sublists of the input whose
union (as sets) is exactly the input tickers, whose lengths sum to the input
length, and whose per-symbol occurrence counts sum to the input's; the two
lists are disjoint as sets whenever the input has no duplicate symbol, while
a symbol occurring twice may succeed once and fail once and appear in both. -/
theorem run_partition_properties (w : CallSeq) (cfg : Config) (tickers : List String) :
    (∀ x, (x ∈ (run w cfg tickers).successful ∨ x ∈ (run w cfg tickers).failed)
        ↔ x ∈ tickers) ∧
    List.Sublist (run w cfg tickers).successful tickers ∧
    List.Sublist (run w cfg tickers).failed tickers ∧
    ((run w cfg tickers).successful.length + (run w cfg tickers).failed.length
        = tickers.length) ∧
    (∀ x, (run w cfg tickers).successful.count x + (run w cfg tickers).failed.count x
        = tickers.count x) ∧
    (tickers.Nodup →
      ∀ x, ¬ (x ∈ (run w cfg tickers).successful ∧ x ∈ (run w cfg tickers).failed)) := by
  refine ⟨?_, ?_, ?_, ?_, ?_, ?_⟩
  · intro x
    simpa [run] using run_loop_mem w cfg (tickers.getLastD "") tickers ⟨0, 0⟩ x
  · simpa [run] using run_loop_sub_successful w cfg (tickers.getLastD "") tickers ⟨0, 0⟩
  · simpa [run] using run_loop_sub_failed w cfg (tickers.getLastD "") tickers ⟨0, 0⟩
  · simpa [run] using run_loop_length w cfg (tickers.getLastD "") tickers ⟨0, 0⟩
  · intro x
    simpa [run] using run_loop_count w cfg (tickers.getLastD "") tickers ⟨0, 0⟩ x
  · intro hnd x hx
    have hc : (run w cfg tickers).successful.count x
        + (run w cfg tickers).failed.count x = tickers.count x := by
      simpa [run] using run_loop_count w cfg (tickers.getLastD "") tickers ⟨0, 0⟩ x
    have h1 : 0 < (run w cfg tickers).successful.count x :=
      List.count_pos_iff.2 hx.1
    have h2 : 0 < (run w cfg tickers).failed.count x :=
      List.count_pos_iff.2 hx.2
    have hle : tickers.count x ≤ 1 := (List.nodup_iff_count_le_one.1 hnd) x
    omega

/-- Witness for C1's amended statement: on a duplicate-free input the two
lists are disjoint. -/
theorem run_partition_properties_witness :
    (["AAA", "BBB"] : List String).Nodup ∧
    ¬ ("AAA" ∈ (run wFlaky cfgDefault ["AAA", "BBB"]).successful ∧
        "AAA" ∈ (run wFlaky cfgDefault ["AAA", "BBB"]).failed) :=
  ⟨by decide,
   (run_partition_properties wFlaky cfgDefault ["AAA", "BBB"]).2.2.2.2.2 (by decide) "AAA"⟩

end PerCall

end StockPipeline
